import Mathlib

/-!
Verification of the Apollo AGC overload-controller variants.

Each Python variant is embedded as a Lean namespace:
* `Console` — `agc_console.py` (GUI variant: tasks carry a `blink` flag,
  `recover_and_prioritize` returns "OVERLOAD" / "STABLE" / "COOLDOWN").
* `V1` — `apollo_agc_v1.py` (no hysteresis counter, degradation only).
* `V2` — `apollo_agc_v2.py` (self-healing, no state label returned).
* `V3` — `apollo_agc_v3.py` (dashboard variant, labels "OVERLOAD" / "STABLE").

Load samples are rationals; the random `simulate_sensor_load` is modelled as
an externally supplied sample per cycle, as the spec prescribes.
-/

namespace Console

structure Task where
  name : String
  priority : Nat
  active : Bool
  blink : Bool
deriving DecidableEq, Repr

structure AGCSystem where
  tasks : List Task
  error_flag : Bool
  overload_count : Nat
  cycle : Nat
deriving DecidableEq, Repr

/-- The task roster built by `AGCSystem.__init__` in `agc_console.py`. -/
def initTasks : List Task :=
  [ { name := "landing_guidance", priority := 1, active := true, blink := false },
    { name := "radar_tracking",   priority := 2, active := true, blink := false },
    { name := "telemetry",        priority := 3, active := true, blink := false },
    { name := "camera_recording", priority := 4, active := true, blink := false } ]

/-- Fresh controller state from `AGCSystem.__init__` in `agc_console.py`. -/
def initAGC : AGCSystem :=
  { tasks := initTasks, error_flag := false, overload_count := 0, cycle := 0 }

/-- `AGCSystem.check_system_load` from `agc_console.py`, with the random
load sample passed in explicitly. -/
def check_system_load (s : AGCSystem) (load : ℚ) : AGCSystem :=
  if load > 1 then
    { s with error_flag := true, overload_count := s.overload_count + 1 }
  else
    { s with error_flag := false,
             overload_count :=
               if s.overload_count > 0 then s.overload_count - 1
               else s.overload_count }

/-- `AGCSystem.recover_and_prioritize` from `agc_console.py`: returns the
updated system together with the state label string the method returns.
The Python loop iterates in priority-sorted order, but each task's update
depends only on that task, so a map over the roster is the same function. -/
def recover_and_prioritize (s : AGCSystem) : AGCSystem × String :=
  if s.error_flag then
    ({ s with tasks := s.tasks.map fun t =>
        { t with active := decide (t.priority ≤ 2),
                 blink := !(decide (t.priority ≤ 2)) } }, "OVERLOAD")
  else if s.overload_count = 0 then
    ({ s with tasks := s.tasks.map fun t =>
        { t with active := true, blink := false } }, "STABLE")
  else
    (s, "COOLDOWN")

/-- One control cycle, as driven by `AGCMissionConsole._update_logic`:
increment `cycle`, sample the load, recover/prioritize. -/
def step (s : AGCSystem) (load : ℚ) : AGCSystem × String :=
  recover_and_prioritize (check_system_load { s with cycle := s.cycle + 1 } load)

/-- Run a sequence of cycles with the given load samples. -/
def runCycles (s : AGCSystem) : List ℚ → AGCSystem
  | [] => s
  | l :: ls => runCycles (step s l).1 ls

/-- A controller state reachable from the fresh controller by some
sequence of load samples. -/
def Reachable (s : AGCSystem) : Prop :=
  ∃ ls : List ℚ, runCycles initAGC ls = s

end Console

namespace V1

structure Task where
  name : String
  priority : Nat
  active : Bool
deriving DecidableEq, Repr

structure AGCSystem where
  tasks : List Task
  error_flag : Bool
deriving DecidableEq, Repr

/-- The task roster built by `AGCSystem.__init__` in `apollo_agc_v1.py`. -/
def initTasks : List Task :=
  [ { name := "landing_guidance", priority := 1, active := true },
    { name := "radar_tracking",   priority := 2, active := true },
    { name := "telemetry",        priority := 3, active := true },
    { name := "camera_recording", priority := 4, active := true } ]

/-- Fresh state from `AGCSystem.__init__` in `apollo_agc_v1.py`. -/
def initAGC : AGCSystem := { tasks := initTasks, error_flag := false }

/-- `AGCSystem.check_system_load` from `apollo_agc_v1.py`. -/
def check_system_load (s : AGCSystem) (load : ℚ) : AGCSystem :=
  if load > 1 then { s with error_flag := true }
  else { s with error_flag := false }

/-- `AGCSystem.recover_and_prioritize` from `apollo_agc_v1.py`: tasks with
priority above 2 are suspended; others are only printed, never touched. -/
def recover_and_prioritize (s : AGCSystem) : AGCSystem :=
  if !s.error_flag then s
  else
    { s with tasks := s.tasks.map fun t =>
        if t.priority > 2 then { t with active := false } else t }

/-- One iteration of `run_cycle` in `apollo_agc_v1.py`. -/
def step (s : AGCSystem) (load : ℚ) : AGCSystem :=
  recover_and_prioritize (check_system_load s load)

/-- Run a sequence of cycles with the given load samples. -/
def runCycles (s : AGCSystem) : List ℚ → AGCSystem
  | [] => s
  | l :: ls => runCycles (step s l) ls

/-- A state reachable from the fresh v1 system. -/
def Reachable (s : AGCSystem) : Prop :=
  ∃ ls : List ℚ, runCycles initAGC ls = s

end V1

namespace V2

structure Task where
  name : String
  priority : Nat
  active : Bool
deriving DecidableEq, Repr

structure AGCSystem where
  tasks : List Task
  error_flag : Bool
  overload_count : Nat
deriving DecidableEq, Repr

/-- The task roster built by `AGCSystem.__init__` in `apollo_agc_v2.py`. -/
def initTasks : List Task :=
  [ { name := "landing_guidance", priority := 1, active := true },
    { name := "radar_tracking",   priority := 2, active := true },
    { name := "telemetry",        priority := 3, active := true },
    { name := "camera_recording", priority := 4, active := true } ]

/-- Fresh state from `AGCSystem.__init__` in `apollo_agc_v2.py`. -/
def initAGC : AGCSystem :=
  { tasks := initTasks, error_flag := false, overload_count := 0 }

/-- `AGCSystem.check_system_load` from `apollo_agc_v2.py`. -/
def check_system_load (s : AGCSystem) (load : ℚ) : AGCSystem :=
  if load > 1 then
    { s with error_flag := true, overload_count := s.overload_count + 1 }
  else
    { s with error_flag := false,
             overload_count :=
               if s.overload_count > 0 then s.overload_count - 1
               else s.overload_count }

/-- `AGCSystem.resume_tasks` from `apollo_agc_v2.py`: reactivates exactly
the currently inactive tasks. -/
def resume_tasks (s : AGCSystem) : AGCSystem :=
  { s with tasks := s.tasks.map fun t =>
      if !t.active then { t with active := true } else t }

/-- `AGCSystem.recover_and_prioritize` from `apollo_agc_v2.py`. -/
def recover_and_prioritize (s : AGCSystem) : AGCSystem :=
  if !s.error_flag then
    if s.overload_count = 0 then resume_tasks s else s
  else
    { s with tasks := s.tasks.map fun t =>
        if t.priority > 2 then
          if t.active then { t with active := false } else t
        else t }

/-- One iteration of `run_cycle` in `apollo_agc_v2.py`. -/
def step (s : AGCSystem) (load : ℚ) : AGCSystem :=
  recover_and_prioritize (check_system_load s load)

/-- Run a sequence of cycles with the given load samples. -/
def runCycles (s : AGCSystem) : List ℚ → AGCSystem
  | [] => s
  | l :: ls => runCycles (step s l) ls

/-- A state reachable from the fresh v2 system. -/
def Reachable (s : AGCSystem) : Prop :=
  ∃ ls : List ℚ, runCycles initAGC ls = s

end V2

namespace V3

structure Task where
  name : String
  priority : Nat
  active : Bool
deriving DecidableEq, Repr

structure AGCSystem where
  tasks : List Task
  error_flag : Bool
  overload_count : Nat
  cycle : Nat
deriving DecidableEq, Repr

/-- The task roster built by `AGCSystem.__init__` in `apollo_agc_v3.py`. -/
def initTasks : List Task :=
  [ { name := "landing_guidance", priority := 1, active := true },
    { name := "radar_tracking",   priority := 2, active := true },
    { name := "telemetry",        priority := 3, active := true },
    { name := "camera_recording", priority := 4, active := true } ]

/-- Fresh state from `AGCSystem.__init__` in `apollo_agc_v3.py`.
(`cycle` is only incremented by the presentation-layer
`render_dashboard`, so the core operations below leave it alone.) -/
def initAGC : AGCSystem :=
  { tasks := initTasks, error_flag := false, overload_count := 0, cycle := 0 }

/-- `AGCSystem.check_system_load` from `apollo_agc_v3.py`. -/
def check_system_load (s : AGCSystem) (load : ℚ) : AGCSystem :=
  if load > 1 then
    { s with error_flag := true, overload_count := s.overload_count + 1 }
  else
    { s with error_flag := false,
             overload_count :=
               if s.overload_count > 0 then s.overload_count - 1
               else s.overload_count }

/-- `AGCSystem.resume_tasks` from `apollo_agc_v3.py`: reactivates all tasks. -/
def resume_tasks (s : AGCSystem) : AGCSystem :=
  { s with tasks := s.tasks.map fun t => { t with active := true } }

/-- `AGCSystem.recover_and_prioritize` from `apollo_agc_v3.py`: returns the
updated system with the state label string. Note the non-overloaded branch
returns "STABLE" even when `overload_count` has not drained to zero. -/
def recover_and_prioritize (s : AGCSystem) : AGCSystem × String :=
  if !s.error_flag then
    (if s.overload_count = 0 then resume_tasks s else s, "STABLE")
  else
    ({ s with tasks := s.tasks.map fun t =>
        if t.priority > 2 then { t with active := false }
        else { t with active := true } }, "OVERLOAD")

/-- One iteration of `run_cycle` in `apollo_agc_v3.py` (dashboard
rendering excluded). -/
def step (s : AGCSystem) (load : ℚ) : AGCSystem × String :=
  recover_and_prioritize (check_system_load s load)

/-- Run a sequence of cycles with the given load samples. -/
def runCycles (s : AGCSystem) : List ℚ → AGCSystem
  | [] => s
  | l :: ls => runCycles (step s l).1 ls

/-- A state reachable from the fresh v3 system. -/
def Reachable (s : AGCSystem) : Prop :=
  ∃ ls : List ℚ, runCycles initAGC ls = s

end V3

/-! ### Case analysis of one control cycle, per variant -/

/-- Console variant, overloaded sample: degrade to the critical set. -/
theorem console_step_overload (s : Console.AGCSystem) (load : ℚ) (h : 1 < load) :
    Console.step s load =
      ({ tasks := s.tasks.map fun t =>
           { t with active := decide (t.priority ≤ 2),
                    blink := !(decide (t.priority ≤ 2)) },
         error_flag := true,
         overload_count := s.overload_count + 1,
         cycle := s.cycle + 1 }, "OVERLOAD") := by
  simp [Console.step, Console.check_system_load, Console.recover_and_prioritize, h]

/-- Console variant, non-overloaded sample with the counter draining to 0
this cycle: full resume. -/
theorem console_step_stable (s : Console.AGCSystem) (load : ℚ)
    (h : ¬ 1 < load) (h2 : s.overload_count ≤ 1) :
    Console.step s load =
      ({ tasks := s.tasks.map fun t => { t with active := true, blink := false },
         error_flag := false, overload_count := 0, cycle := s.cycle + 1 },
       "STABLE") := by
  have hc : (if s.overload_count > 0 then s.overload_count - 1
             else s.overload_count) = 0 := by
    split <;> omega
  simp [Console.step, Console.check_system_load, Console.recover_and_prioritize, h, hc]

/-- Console variant, non-overloaded sample with residual debt: cooldown
no-op on the task set. -/
theorem console_step_cooldown (s : Console.AGCSystem) (load : ℚ)
    (h : ¬ 1 < load) (h2 : 2 ≤ s.overload_count) :
    Console.step s load =
      ({ s with error_flag := false, overload_count := s.overload_count - 1,
                cycle := s.cycle + 1 }, "COOLDOWN") := by
  have hc : (if s.overload_count > 0 then s.overload_count - 1
             else s.overload_count) = s.overload_count - 1 := by
    split <;> omega
  have hne : ¬ s.overload_count - 1 = 0 := by omega
  simp [Console.step, Console.check_system_load, Console.recover_and_prioritize,
        h, hc, hne]

/-- V1 variant, non-overloaded sample: only the error flag moves. -/
theorem v1_step_ok (s : V1.AGCSystem) (load : ℚ) (h : ¬ 1 < load) :
    V1.step s load = { s with error_flag := false } := by
  simp [V1.step, V1.check_system_load, V1.recover_and_prioritize, h]

/-- V1 variant, overloaded sample: suspend the degradable tasks. -/
theorem v1_step_overload (s : V1.AGCSystem) (load : ℚ) (h : 1 < load) :
    V1.step s load =
      { tasks := s.tasks.map fun t =>
          if t.priority > 2 then { t with active := false } else t,
        error_flag := true } := by
  simp [V1.step, V1.check_system_load, V1.recover_and_prioritize, h]

/-- V2 variant, overloaded sample. -/
theorem v2_step_overload (s : V2.AGCSystem) (load : ℚ) (h : 1 < load) :
    V2.step s load =
      { tasks := s.tasks.map fun t =>
          if t.priority > 2 then
            if t.active then { t with active := false } else t
          else t,
        error_flag := true,
        overload_count := s.overload_count + 1 } := by
  simp [V2.step, V2.check_system_load, V2.recover_and_prioritize, h]

/-- V2 variant, non-overloaded sample, counter drains to 0: resume. -/
theorem v2_step_stable (s : V2.AGCSystem) (load : ℚ)
    (h : ¬ 1 < load) (h2 : s.overload_count ≤ 1) :
    V2.step s load =
      { tasks := s.tasks.map fun t =>
          if !t.active then { t with active := true } else t,
        error_flag := false, overload_count := 0 } := by
  have hc : (if s.overload_count > 0 then s.overload_count - 1
             else s.overload_count) = 0 := by
    split <;> omega
  simp [V2.step, V2.check_system_load, V2.recover_and_prioritize,
        V2.resume_tasks, h, hc]

/-- V2 variant, non-overloaded sample with residual debt: no-op. -/
theorem v2_step_cooldown (s : V2.AGCSystem) (load : ℚ)
    (h : ¬ 1 < load) (h2 : 2 ≤ s.overload_count) :
    V2.step s load =
      { s with error_flag := false, overload_count := s.overload_count - 1 } := by
  have hc : (if s.overload_count > 0 then s.overload_count - 1
             else s.overload_count) = s.overload_count - 1 := by
    split <;> omega
  have hne : ¬ s.overload_count - 1 = 0 := by omega
  simp [V2.step, V2.check_system_load, V2.recover_and_prioritize, h, hc, hne]

/-- V3 variant, overloaded sample. -/
theorem v3_step_overload (s : V3.AGCSystem) (load : ℚ) (h : 1 < load) :
    V3.step s load =
      ({ s with
         tasks := s.tasks.map (fun t =>
           if t.priority > 2 then { t with active := false }
           else { t with active := true }),
         error_flag := true,
         overload_count := s.overload_count + 1 }, "OVERLOAD") := by
  simp [V3.step, V3.check_system_load, V3.recover_and_prioritize, h]

/-- V3 variant, non-overloaded sample, counter drains to 0: resume, "STABLE". -/
theorem v3_step_stable (s : V3.AGCSystem) (load : ℚ)
    (h : ¬ 1 < load) (h2 : s.overload_count ≤ 1) :
    V3.step s load =
      ({ s with
         tasks := s.tasks.map (fun t => { t with active := true }),
         error_flag := false, overload_count := 0 }, "STABLE") := by
  have hc : (if s.overload_count > 0 then s.overload_count - 1
             else s.overload_count) = 0 := by
    split <;> omega
  simp [V3.step, V3.check_system_load, V3.recover_and_prioritize,
        V3.resume_tasks, h, hc]

/-- V3 variant, non-overloaded sample with residual debt: task set untouched
but still labelled "STABLE". -/
theorem v3_step_cooling (s : V3.AGCSystem) (load : ℚ)
    (h : ¬ 1 < load) (h2 : 2 ≤ s.overload_count) :
    V3.step s load =
      ({ s with error_flag := false, overload_count := s.overload_count - 1 },
       "STABLE") := by
  have hc : (if s.overload_count > 0 then s.overload_count - 1
             else s.overload_count) = s.overload_count - 1 := by
    split <;> omega
  have hne : ¬ s.overload_count - 1 = 0 := by omega
  simp [V3.step, V3.check_system_load, V3.recover_and_prioritize, h, hc, hne]

/-! ### Reachability induction and invariants -/

/-- An invariant preserved by every console cycle holds after any run. -/
theorem console_runCycles_preserve (P : Console.AGCSystem → Prop)
    (hstep : ∀ s load, P s → P (Console.step s load).1) :
    ∀ (ls : List ℚ) (s : Console.AGCSystem), P s → P (Console.runCycles s ls) := by
  intro ls
  induction ls with
  | nil => intro s hs; exact hs
  | cons l ls ih =>
      intro s hs
      exact ih _ (hstep s l hs)

/-- Invariant rule for reachable console states. -/
theorem console_reachable_ind (P : Console.AGCSystem → Prop)
    (hinit : P Console.initAGC)
    (hstep : ∀ s load, P s → P (Console.step s load).1)
    (s : Console.AGCSystem) (hs : Console.Reachable s) : P s := by
  obtain ⟨ls, rfl⟩ := hs
  exact console_runCycles_preserve P hstep ls Console.initAGC hinit

/-- An invariant preserved by every v1 cycle holds after any run. -/
theorem v1_runCycles_preserve (P : V1.AGCSystem → Prop)
    (hstep : ∀ s load, P s → P (V1.step s load)) :
    ∀ (ls : List ℚ) (s : V1.AGCSystem), P s → P (V1.runCycles s ls) := by
  intro ls
  induction ls with
  | nil => intro s hs; exact hs
  | cons l ls ih =>
      intro s hs
      exact ih _ (hstep s l hs)

/-- Invariant rule for reachable v1 states. -/
theorem v1_reachable_ind (P : V1.AGCSystem → Prop)
    (hinit : P V1.initAGC)
    (hstep : ∀ s load, P s → P (V1.step s load))
    (s : V1.AGCSystem) (hs : V1.Reachable s) : P s := by
  obtain ⟨ls, rfl⟩ := hs
  exact v1_runCycles_preserve P hstep ls V1.initAGC hinit

/-- Critical tasks (priority at most 2) are active in every reachable
console state. -/
theorem console_critical_invariant (s : Console.AGCSystem)
    (hs : Console.Reachable s) :
    ∀ t ∈ s.tasks, t.priority ≤ 2 → t.active = true := by
  refine console_reachable_ind
    (fun s => ∀ t ∈ s.tasks, t.priority ≤ 2 → t.active = true) ?_ ?_ s hs
  · decide
  · intro s load hP
    rcases lt_or_le 1 load with hl | hl
    · rw [console_step_overload s load hl]
      intro t ht hp
      simp only [List.mem_map] at ht
      obtain ⟨u, hu, rfl⟩ := ht
      simp only at hp ⊢
      exact decide_eq_true hp
    · rcases le_or_lt s.overload_count 1 with hc | hc
      · rw [console_step_stable s load (not_lt.mpr hl) hc]
        intro t ht hp
        simp only [List.mem_map] at ht
        obtain ⟨u, hu, rfl⟩ := ht
        rfl
      · rw [console_step_cooldown s load (not_lt.mpr hl) hc]
        exact hP

/-- Critical tasks are active in every reachable v1 state. -/
theorem v1_critical_invariant (s : V1.AGCSystem) (hs : V1.Reachable s) :
    ∀ t ∈ s.tasks, t.priority ≤ 2 → t.active = true := by
  refine v1_reachable_ind
    (fun s => ∀ t ∈ s.tasks, t.priority ≤ 2 → t.active = true) ?_ ?_ s hs
  · decide
  · intro s load hP
    rcases lt_or_le 1 load with hl | hl
    · rw [v1_step_overload s load hl]
      intro t ht hp
      simp only [List.mem_map] at ht
      obtain ⟨u, hu, rfl⟩ := ht
      by_cases hgt : u.priority > 2
      · rw [if_pos hgt] at hp
        simp only at hp
        omega
      · rw [if_neg hgt] at hp ⊢
        exact hP u hu hp
    · rw [v1_step_ok s load (not_lt.mpr hl)]
      exact hP

/-- The console counter after one cycle, as a single formula
(Nat subtraction supplies the floor at 0). -/
theorem console_step_count (s : Console.AGCSystem) (load : ℚ) :
    (Console.step s load).1.overload_count =
      if 1 < load then s.overload_count + 1 else s.overload_count - 1 := by
  rcases lt_or_le 1 load with hl | hl
  · rw [console_step_overload s load hl, if_pos hl]
  · rw [if_neg (not_lt.mpr hl)]
    rcases le_or_lt s.overload_count 1 with hc | hc
    · rw [console_step_stable s load (not_lt.mpr hl) hc]
      show 0 = s.overload_count - 1
      omega
    · rw [console_step_cooldown s load (not_lt.mpr hl) hc]

/-- The v2 counter after one cycle. -/
theorem v2_step_count (s : V2.AGCSystem) (load : ℚ) :
    (V2.step s load).overload_count =
      if 1 < load then s.overload_count + 1 else s.overload_count - 1 := by
  rcases lt_or_le 1 load with hl | hl
  · rw [v2_step_overload s load hl, if_pos hl]
  · rw [if_neg (not_lt.mpr hl)]
    rcases le_or_lt s.overload_count 1 with hc | hc
    · rw [v2_step_stable s load (not_lt.mpr hl) hc]
      show 0 = s.overload_count - 1
      omega
    · rw [v2_step_cooldown s load (not_lt.mpr hl) hc]

/-- The v3 counter after one cycle. -/
theorem v3_step_count (s : V3.AGCSystem) (load : ℚ) :
    (V3.step s load).1.overload_count =
      if 1 < load then s.overload_count + 1 else s.overload_count - 1 := by
  rcases lt_or_le 1 load with hl | hl
  · rw [v3_step_overload s load hl, if_pos hl]
  · rw [if_neg (not_lt.mpr hl)]
    rcases le_or_lt s.overload_count 1 with hc | hc
    · rw [v3_step_stable s load (not_lt.mpr hl) hc]
      show 0 = s.overload_count - 1
      omega
    · rw [v3_step_cooling s load (not_lt.mpr hl) hc]

/-- Pairs drawn from a list zipped with itself are diagonal. -/
theorem list_zip_self {α : Type} (l : List α) : ∀ p ∈ l.zip l, p.1 = p.2 := by
  induction l with
  | nil => intro p hp; cases hp
  | cons a l ih =>
      intro p hp
      simp only [List.zip_cons_cons, List.mem_cons] at hp
      rcases hp with rfl | hp
      · rfl
      · exact ih p hp

/-- A pointwise relation between a list and its image under a map. -/
theorem forall2_map_self {α : Type} (R : α → α → Prop) (f : α → α)
    (hf : ∀ a, R a (f a)) (l : List α) : List.Forall₂ R l (l.map f) := by
  induction l with
  | nil => exact List.Forall₂.nil
  | cons a l ih => exact List.Forall₂.cons (hf a) ih

/-- A reflexive pointwise relation relates a list to itself. -/
theorem forall2_self {α : Type} (R : α → α → Prop) (hR : ∀ a, R a a)
    (l : List α) : List.Forall₂ R l l := by
  induction l with
  | nil => exact List.Forall₂.nil
  | cons a l ih => exact List.Forall₂.cons (hR a) ih

/-- Pointwise relations compose along a transitive relation. -/
theorem forall2_trans {α : Type} (R : α → α → Prop)
    (hR : ∀ a b c, R a b → R b c → R a c) :
    ∀ {l1 l2 l3 : List α},
      List.Forall₂ R l1 l2 → List.Forall₂ R l2 l3 → List.Forall₂ R l1 l3 := by
  intro l1 l2 l3 h12
  induction h12 generalizing l3 with
  | nil =>
      intro h23
      cases h23
      exact List.Forall₂.nil
  | cons hab htl ih =>
      intro h23
      cases h23 with
      | cons hbc h23tl => exact List.Forall₂.cons (hR _ _ _ hab hbc) (ih h23tl)

/-! ### Claims -/

/-- Claim C1, as stated, is false on the cited v3 code: after overload
cycles with loads 1.5, 1.5, a cycle with load 0.5 is labelled "STABLE"
although `overload_count` is 1 (not 0) and the degradable tasks
(priorities 3 and 4) are still inactive. -/
theorem c1_counterexample :
    (V3.step (V3.runCycles V3.initAGC [mkRat 3 2, mkRat 3 2]) (mkRat 1 2)).2
      = "STABLE" ∧
    mkRat 1 2 ≤ 1 ∧
    (V3.step (V3.runCycles V3.initAGC [mkRat 3 2, mkRat 3 2])
      (mkRat 1 2)).1.overload_count = 1 ∧
    ((V3.step (V3.runCycles V3.initAGC [mkRat 3 2, mkRat 3 2])
        (mkRat 1 2)).1.tasks.map (fun t => (t.priority, t.active)))
      = [(1, true), (2, true), (3, false), (4, false)] := by
  decide

/-- Claim C1 amended: in the console variant (the controller with the
COOLDOWN state), for every reachable state and load sample, the cycle's
state is "STABLE" iff the load sample is at most 1.0 and `overload_count`
is 0 after the cycle, and in that case every task is active. -/
theorem c1_amended_full_resume (s : Console.AGCSystem)
    (_hs : Console.Reachable s) (load : ℚ) :
    ((Console.step s load).2 = "STABLE" ↔
      load ≤ 1 ∧ (Console.step s load).1.overload_count = 0) ∧
    ((Console.step s load).2 = "STABLE" →
      ∀ t ∈ (Console.step s load).1.tasks, t.active = true) := by
  rcases lt_or_le 1 load with hl | hl
  · rw [console_step_overload s load hl]
    constructor
    · constructor
      · intro h
        simp at h
      · intro h
        exact absurd hl (not_lt.mpr h.1)
    · intro h
      simp at h
  · rcases le_or_lt s.overload_count 1 with hc | hc
    · rw [console_step_stable s load (not_lt.mpr hl) hc]
      constructor
      · constructor
        · intro _
          exact ⟨hl, rfl⟩
        · intro _
          rfl
      · intro _ t ht
        simp only [List.mem_map] at ht
        obtain ⟨u, hu, rfl⟩ := ht
        rfl
    · rw [console_step_cooldown s load (not_lt.mpr hl) hc]
      constructor
      · constructor
        · intro h
          simp at h
        · intro h
          have h0 : s.overload_count - 1 = 0 := h.2
          omega
      · intro h
        simp at h

/-- Witness for C1 amended at the fresh controller with load 0.5. -/
theorem c1_witness :
    ((Console.step Console.initAGC (mkRat 1 2)).2 = "STABLE" ↔
      mkRat 1 2 ≤ 1 ∧
      (Console.step Console.initAGC (mkRat 1 2)).1.overload_count = 0) ∧
    ((Console.step Console.initAGC (mkRat 1 2)).2 = "STABLE" →
      ∀ t ∈ (Console.step Console.initAGC (mkRat 1 2)).1.tasks,
        t.active = true) :=
  c1_amended_full_resume Console.initAGC ⟨[], rfl⟩ (mkRat 1 2)

/-- Claim C2: in every reachable state of the console controller and of
the v1 system, every critical task (priority at most the threshold 2) is
active — critical tasks are never deactivated. -/
theorem c2_critical_tasks_never_deactivated
    (s : Console.AGCSystem) (hs : Console.Reachable s)
    (s1 : V1.AGCSystem) (hs1 : V1.Reachable s1) :
    (∀ t ∈ s.tasks, t.priority ≤ 2 → t.active = true) ∧
    (∀ t ∈ s1.tasks, t.priority ≤ 2 → t.active = true) :=
  ⟨console_critical_invariant s hs, v1_critical_invariant s1 hs1⟩

/-- Witness for C2 at a reachable state that went through an overload. -/
theorem c2_witness :
    (∀ t ∈ (Console.runCycles Console.initAGC [mkRat 3 2]).tasks,
      t.priority ≤ 2 → t.active = true) ∧
    (∀ t ∈ (V1.runCycles V1.initAGC [mkRat 3 2]).tasks,
      t.priority ≤ 2 → t.active = true) :=
  c2_critical_tasks_never_deactivated
    (Console.runCycles Console.initAGC [mkRat 3 2]) ⟨[mkRat 3 2], rfl⟩
    (V1.runCycles V1.initAGC [mkRat 3 2]) ⟨[mkRat 3 2], rfl⟩

/-- Claim C3: on every cycle from every reachable state (console and v2),
an overloaded sample increments `overload_count` by exactly 1, a
non-overloaded sample sets it to max(0, old - 1), and the counter is
always nonnegative. -/
theorem c3_hysteresis_monotonicity
    (s : Console.AGCSystem) (_hs : Console.Reachable s)
    (s2 : V2.AGCSystem) (_hs2 : V2.Reachable s2) (load : ℚ) :
    ((1 < load →
        ((Console.step s load).1.overload_count : ℤ)
          = (s.overload_count : ℤ) + 1) ∧
     (load ≤ 1 →
        ((Console.step s load).1.overload_count : ℤ)
          = max 0 ((s.overload_count : ℤ) - 1)) ∧
     0 ≤ ((Console.step s load).1.overload_count : ℤ)) ∧
    ((1 < load →
        ((V2.step s2 load).overload_count : ℤ)
          = (s2.overload_count : ℤ) + 1) ∧
     (load ≤ 1 →
        ((V2.step s2 load).overload_count : ℤ)
          = max 0 ((s2.overload_count : ℤ) - 1)) ∧
     0 ≤ ((V2.step s2 load).overload_count : ℤ)) := by
  rw [console_step_count s load, v2_step_count s2 load]
  rcases lt_or_le 1 load with hl | hl
  · rw [if_pos hl, if_pos hl]
    refine ⟨⟨fun _ => by push_cast; ring, fun h => absurd hl (not_lt.mpr h), ?_⟩,
            ⟨fun _ => by push_cast; ring, fun h => absurd hl (not_lt.mpr h), ?_⟩⟩
    · positivity
    · positivity
  · rw [if_neg (not_lt.mpr hl), if_neg (not_lt.mpr hl)]
    refine ⟨⟨fun h => absurd h (not_lt.mpr hl), fun _ => ?_, ?_⟩,
            ⟨fun h => absurd h (not_lt.mpr hl), fun _ => ?_, ?_⟩⟩
    · omega
    · positivity
    · omega
    · positivity

/-- Witness for C3 at the fresh controllers with load 1.5. -/
theorem c3_witness :
    ((1 < mkRat 3 2 →
        ((Console.step Console.initAGC (mkRat 3 2)).1.overload_count : ℤ)
          = (Console.initAGC.overload_count : ℤ) + 1) ∧
     (mkRat 3 2 ≤ 1 →
        ((Console.step Console.initAGC (mkRat 3 2)).1.overload_count : ℤ)
          = max 0 ((Console.initAGC.overload_count : ℤ) - 1)) ∧
     0 ≤ ((Console.step Console.initAGC (mkRat 3 2)).1.overload_count : ℤ)) ∧
    ((1 < mkRat 3 2 →
        ((V2.step V2.initAGC (mkRat 3 2)).overload_count : ℤ)
          = (V2.initAGC.overload_count : ℤ) + 1) ∧
     (mkRat 3 2 ≤ 1 →
        ((V2.step V2.initAGC (mkRat 3 2)).overload_count : ℤ)
          = max 0 ((V2.initAGC.overload_count : ℤ) - 1)) ∧
     0 ≤ ((V2.step V2.initAGC (mkRat 3 2)).overload_count : ℤ)) :=
  c3_hysteresis_monotonicity Console.initAGC ⟨[], rfl⟩ V2.initAGC ⟨[], rfl⟩
    (mkRat 3 2)

/-- Claim C4, as stated, is false on the code: entering a cycle with
`overload_count = 1` (reachable by one overload at load 1.5) and load
0.5, the counter drains to 0, the cycle is "STABLE", and the degradable
tasks (priorities 3, 4) flip from inactive to active — they do not stay
as they were. -/
theorem c4_counterexample :
    (Console.runCycles Console.initAGC [mkRat 3 2]).overload_count > 0 ∧
    mkRat 1 2 ≤ 1 ∧
    ((Console.runCycles Console.initAGC [mkRat 3 2]).tasks.map
        (fun t => (t.priority, t.active)))
      = [(1, true), (2, true), (3, false), (4, false)] ∧
    ((Console.step (Console.runCycles Console.initAGC [mkRat 3 2])
        (mkRat 1 2)).1.tasks.map (fun t => (t.priority, t.active)))
      = [(1, true), (2, true), (3, true), (4, true)] := by
  decide

/-- Claim C4 amended: if `overload_count > 1` entering a cycle (so the
counter has not drained to 0 after the decrement) and the load sample is
at most 1.0, the cycle leaves every degradable task's active flag exactly
as it was. -/
theorem c4_amended_no_premature_resume (s : Console.AGCSystem)
    (_hs : Console.Reachable s) (load : ℚ)
    (hc : 1 < s.overload_count) (hl : load ≤ 1) :
    ∀ p ∈ s.tasks.zip (Console.step s load).1.tasks,
      2 < p.1.priority → p.2.active = p.1.active := by
  rw [console_step_cooldown s load (not_lt.mpr hl) hc]
  intro p hp _
  rw [list_zip_self s.tasks p hp]

/-- Witness for C4 amended at the reachable state after two overloads. -/
theorem c4_witness :
    1 < (Console.runCycles Console.initAGC
          [mkRat 3 2, mkRat 3 2]).overload_count ∧
    (∀ p ∈ (Console.runCycles Console.initAGC
              [mkRat 3 2, mkRat 3 2]).tasks.zip
        (Console.step (Console.runCycles Console.initAGC
          [mkRat 3 2, mkRat 3 2]) (mkRat 1 2)).1.tasks,
      2 < p.1.priority → p.2.active = p.1.active) :=
  ⟨by decide,
   c4_amended_no_premature_resume
     (Console.runCycles Console.initAGC [mkRat 3 2, mkRat 3 2])
     ⟨[mkRat 3 2, mkRat 3 2], rfl⟩ (mkRat 1 2) (by decide) (by decide)⟩

/-- Claim C5: two (or more) consecutive overloaded cycles are idempotent
re-assertions — the active partition after the second overloaded cycle
equals the partition after the first, in the console variant and in v1. -/
theorem c5_overload_idempotent (s : Console.AGCSystem)
    (_hs : Console.Reachable s)
    (s1 : V1.AGCSystem) (_hs1 : V1.Reachable s1)
    (l1 l2 : ℚ) (h1 : 1 < l1) (h2 : 1 < l2) :
    ((Console.step (Console.step s l1).1 l2).1.tasks.map
        (fun t => (t.name, t.active)))
      = ((Console.step s l1).1.tasks.map (fun t => (t.name, t.active))) ∧
    ((V1.step (V1.step s1 l1) l2).tasks.map (fun t => (t.name, t.active)))
      = ((V1.step s1 l1).tasks.map (fun t => (t.name, t.active))) := by
  constructor
  · rw [console_step_overload s l1 h1, console_step_overload _ l2 h2]
    simp only [List.map_map]
    exact List.map_congr_left (fun a _ => rfl)
  · rw [v1_step_overload s1 l1 h1, v1_step_overload _ l2 h2]
    simp only [List.map_map]
    refine List.map_congr_left (fun a _ => ?_)
    by_cases hgt : a.priority > 2
    · simp [Function.comp, hgt]
    · simp [Function.comp, hgt]

/-- Witness for C5 at the fresh controllers with loads 1.5 and 2. -/
theorem c5_witness :
    ((Console.step (Console.step Console.initAGC (mkRat 3 2)).1
        (mkRat 2 1)).1.tasks.map (fun t => (t.name, t.active)))
      = ((Console.step Console.initAGC (mkRat 3 2)).1.tasks.map
          (fun t => (t.name, t.active))) ∧
    ((V1.step (V1.step V1.initAGC (mkRat 3 2)) (mkRat 2 1)).tasks.map
        (fun t => (t.name, t.active)))
      = ((V1.step V1.initAGC (mkRat 3 2)).tasks.map
          (fun t => (t.name, t.active))) :=
  c5_overload_idempotent Console.initAGC ⟨[], rfl⟩ V1.initAGC ⟨[], rfl⟩
    (mkRat 3 2) (mkRat 2 1) (by decide) (by decide)

/-- Claim C6: two runs of one console cycle from the same state, with two
different load samples on the same side of the overload threshold, give
identical `overload_count`, identical state label, and identical active
flags — the policy never reads the numeric load value. -/
theorem c6_policy_ignores_load_value (s : Console.AGCSystem)
    (_hs : Console.Reachable s) (l1 l2 : ℚ) (_hne : l1 ≠ l2)
    (hside : (1 < l1 ∧ 1 < l2) ∨ (l1 ≤ 1 ∧ l2 ≤ 1)) :
    (Console.step s l1).1.overload_count
      = (Console.step s l2).1.overload_count ∧
    (Console.step s l1).2 = (Console.step s l2).2 ∧
    ((Console.step s l1).1.tasks.map (fun t => (t.name, t.active)))
      = ((Console.step s l2).1.tasks.map (fun t => (t.name, t.active))) := by
  have key : Console.step s l1 = Console.step s l2 := by
    rcases hside with ⟨ha, hb⟩ | ⟨ha, hb⟩
    · rw [console_step_overload s l1 ha, console_step_overload s l2 hb]
    · simp [Console.step, Console.check_system_load,
            not_lt.mpr ha, not_lt.mpr hb]
  rw [key]
  exact ⟨rfl, rfl, rfl⟩

/-- Witness for C6 at the fresh controller with loads 0.6 and 0.8. -/
theorem c6_witness :
    (Console.step Console.initAGC (mkRat 3 5)).1.overload_count
      = (Console.step Console.initAGC (mkRat 4 5)).1.overload_count ∧
    (Console.step Console.initAGC (mkRat 3 5)).2
      = (Console.step Console.initAGC (mkRat 4 5)).2 ∧
    ((Console.step Console.initAGC (mkRat 3 5)).1.tasks.map
        (fun t => (t.name, t.active)))
      = ((Console.step Console.initAGC (mkRat 4 5)).1.tasks.map
          (fun t => (t.name, t.active))) :=
  c6_policy_ignores_load_value Console.initAGC ⟨[], rfl⟩
    (mkRat 3 5) (mkRat 4 5) (by decide)
    (Or.inr ⟨by decide, by decide⟩)

/-- Claim C7, as stated, is false on the code: from the fresh controller
(a reachable state with `overload_count = 0`) a cycle with load 0.5
leaves the counter at 0 — a change of 0, neither exactly +1 nor
exactly -1. -/
theorem c7_counterexample :
    Console.initAGC.overload_count = 0 ∧
    (Console.step Console.initAGC (mkRat 1 2)).1.overload_count = 0 ∧
    ¬ (((Console.step Console.initAGC (mkRat 1 2)).1.overload_count : ℤ)
         = (Console.initAGC.overload_count : ℤ) + 1 ∨
       ((Console.step Console.initAGC (mkRat 1 2)).1.overload_count : ℤ)
         = (Console.initAGC.overload_count : ℤ) - 1) := by
  decide

/-- Claim C7 amended: on every cycle the counter changes by +1 when
overloaded, by -1 when non-overloaded and positive, and stays 0 when
non-overloaded and already 0; its change is bounded by 1 in absolute
value and it is always nonnegative — in the console and v3 variants. -/
theorem c7_amended_count_change (s : Console.AGCSystem)
    (_hs : Console.Reachable s)
    (s3 : V3.AGCSystem) (_hs3 : V3.Reachable s3) (load : ℚ) :
    ((1 < load →
        ((Console.step s load).1.overload_count : ℤ)
          = (s.overload_count : ℤ) + 1) ∧
     (load ≤ 1 → 0 < s.overload_count →
        ((Console.step s load).1.overload_count : ℤ)
          = (s.overload_count : ℤ) - 1) ∧
     (load ≤ 1 → s.overload_count = 0 →
        (Console.step s load).1.overload_count = 0) ∧
     (-1 ≤ ((Console.step s load).1.overload_count : ℤ)
            - (s.overload_count : ℤ)) ∧
     (((Console.step s load).1.overload_count : ℤ)
            - (s.overload_count : ℤ) ≤ 1) ∧
     0 ≤ ((Console.step s load).1.overload_count : ℤ)) ∧
    ((1 < load →
        ((V3.step s3 load).1.overload_count : ℤ)
          = (s3.overload_count : ℤ) + 1) ∧
     (load ≤ 1 → 0 < s3.overload_count →
        ((V3.step s3 load).1.overload_count : ℤ)
          = (s3.overload_count : ℤ) - 1) ∧
     (load ≤ 1 → s3.overload_count = 0 →
        (V3.step s3 load).1.overload_count = 0) ∧
     (-1 ≤ ((V3.step s3 load).1.overload_count : ℤ)
            - (s3.overload_count : ℤ)) ∧
     (((V3.step s3 load).1.overload_count : ℤ)
            - (s3.overload_count : ℤ) ≤ 1) ∧
     0 ≤ ((V3.step s3 load).1.overload_count : ℤ)) := by
  rw [console_step_count s load, v3_step_count s3 load]
  rcases lt_or_le 1 load with hl | hl
  · rw [if_pos hl, if_pos hl]
    exact ⟨⟨fun _ => by omega, fun h => absurd hl (not_lt.mpr h),
            fun h => absurd hl (not_lt.mpr h), by omega, by omega, by omega⟩,
           ⟨fun _ => by omega, fun h => absurd hl (not_lt.mpr h),
            fun h => absurd hl (not_lt.mpr h), by omega, by omega, by omega⟩⟩
  · rw [if_neg (not_lt.mpr hl), if_neg (not_lt.mpr hl)]
    exact ⟨⟨fun h => absurd h (not_lt.mpr hl), fun _ hpos => by omega,
            fun _ h0 => by omega, by omega, by omega, by omega⟩,
           ⟨fun h => absurd h (not_lt.mpr hl), fun _ hpos => by omega,
            fun _ h0 => by omega, by omega, by omega, by omega⟩⟩

/-- Witness for C7 amended at the fresh controllers with load 2. -/
theorem c7_witness :
    ((1 < mkRat 2 1 →
        ((Console.step Console.initAGC (mkRat 2 1)).1.overload_count : ℤ)
          = (Console.initAGC.overload_count : ℤ) + 1) ∧
     (mkRat 2 1 ≤ 1 → 0 < Console.initAGC.overload_count →
        ((Console.step Console.initAGC (mkRat 2 1)).1.overload_count : ℤ)
          = (Console.initAGC.overload_count : ℤ) - 1) ∧
     (mkRat 2 1 ≤ 1 → Console.initAGC.overload_count = 0 →
        (Console.step Console.initAGC (mkRat 2 1)).1.overload_count = 0) ∧
     (-1 ≤ ((Console.step Console.initAGC (mkRat 2 1)).1.overload_count : ℤ)
            - (Console.initAGC.overload_count : ℤ)) ∧
     (((Console.step Console.initAGC (mkRat 2 1)).1.overload_count : ℤ)
            - (Console.initAGC.overload_count : ℤ) ≤ 1) ∧
     0 ≤ ((Console.step Console.initAGC (mkRat 2 1)).1.overload_count : ℤ)) ∧
    ((1 < mkRat 2 1 →
        ((V3.step V3.initAGC (mkRat 2 1)).1.overload_count : ℤ)
          = (V3.initAGC.overload_count : ℤ) + 1) ∧
     (mkRat 2 1 ≤ 1 → 0 < V3.initAGC.overload_count →
        ((V3.step V3.initAGC (mkRat 2 1)).1.overload_count : ℤ)
          = (V3.initAGC.overload_count : ℤ) - 1) ∧
     (mkRat 2 1 ≤ 1 → V3.initAGC.overload_count = 0 →
        (V3.step V3.initAGC (mkRat 2 1)).1.overload_count = 0) ∧
     (-1 ≤ ((V3.step V3.initAGC (mkRat 2 1)).1.overload_count : ℤ)
            - (V3.initAGC.overload_count : ℤ)) ∧
     (((V3.step V3.initAGC (mkRat 2 1)).1.overload_count : ℤ)
            - (V3.initAGC.overload_count : ℤ) ≤ 1) ∧
     0 ≤ ((V3.step V3.initAGC (mkRat 2 1)).1.overload_count : ℤ)) :=
  c7_amended_count_change Console.initAGC ⟨[], rfl⟩ V3.initAGC ⟨[], rfl⟩
    (mkRat 2 1)

/-- Claim C8, as stated, is false on the code: on the load sequence
1.5, 1.5, 0.5, 0.5, 0.5 the degradable tasks are already active after
the fourth cycle (the cycle where the count first reaches 0), so they
are not "inactive through the first four cycles". -/
theorem c8_counterexample :
    (Console.runCycles Console.initAGC
      [mkRat 3 2, mkRat 3 2, mkRat 1 2, mkRat 1 2]).overload_count = 0 ∧
    ((Console.runCycles Console.initAGC
        [mkRat 3 2, mkRat 3 2, mkRat 1 2, mkRat 1 2]).tasks.map
          (fun t => (t.priority, t.active)))
      = [(1, true), (2, true), (3, true), (4, true)] := by
  decide

/-- Claim C8 amended: on the load sequence 1.5, 1.5, 0.5, 0.5, 0.5 the
counter after each cycle is 1, 2, 1, 0, 0, the fourth cycle is "STABLE",
the degradable tasks are inactive through the first three cycles, and
they are active from the fourth cycle (where the count first reaches 0)
onward. -/
theorem c8_amended_scenario_d :
    (Console.runCycles Console.initAGC [mkRat 3 2]).overload_count = 1 ∧
    (Console.runCycles Console.initAGC
      [mkRat 3 2, mkRat 3 2]).overload_count = 2 ∧
    (Console.runCycles Console.initAGC
      [mkRat 3 2, mkRat 3 2, mkRat 1 2]).overload_count = 1 ∧
    (Console.runCycles Console.initAGC
      [mkRat 3 2, mkRat 3 2, mkRat 1 2, mkRat 1 2]).overload_count = 0 ∧
    (Console.runCycles Console.initAGC
      [mkRat 3 2, mkRat 3 2, mkRat 1 2, mkRat 1 2, mkRat 1 2]).overload_count
      = 0 ∧
    (Console.step (Console.runCycles Console.initAGC
      [mkRat 3 2, mkRat 3 2, mkRat 1 2]) (mkRat 1 2)).2 = "STABLE" ∧
    ((Console.runCycles Console.initAGC [mkRat 3 2]).tasks.map
        (fun t => (t.priority, t.active)))
      = [(1, true), (2, true), (3, false), (4, false)] ∧
    ((Console.runCycles Console.initAGC
        [mkRat 3 2, mkRat 3 2]).tasks.map (fun t => (t.priority, t.active)))
      = [(1, true), (2, true), (3, false), (4, false)] ∧
    ((Console.runCycles Console.initAGC
        [mkRat 3 2, mkRat 3 2, mkRat 1 2]).tasks.map
          (fun t => (t.priority, t.active)))
      = [(1, true), (2, true), (3, false), (4, false)] ∧
    ((Console.runCycles Console.initAGC
        [mkRat 3 2, mkRat 3 2, mkRat 1 2, mkRat 1 2]).tasks.map
          (fun t => (t.priority, t.active)))
      = [(1, true), (2, true), (3, true), (4, true)] ∧
    ((Console.runCycles Console.initAGC
        [mkRat 3 2, mkRat 3 2, mkRat 1 2, mkRat 1 2, mkRat 1 2]).tasks.map
          (fun t => (t.priority, t.active)))
      = [(1, true), (2, true), (3, true), (4, true)] := by
  decide

/-- Claim C9: in the GUI variant, the invariant that every task's blink
flag is the negation of its active flag holds initially and is preserved
by every `check_system_load` and every `recover_and_prioritize` call,
including in the COOLDOWN state. -/
theorem c9_blink_mirrors_active (s : Console.AGCSystem) (load : ℚ)
    (h : ∀ t ∈ s.tasks, t.blink = !t.active) :
    (∀ t ∈ Console.initAGC.tasks, t.blink = !t.active) ∧
    (∀ t ∈ (Console.check_system_load s load).tasks, t.blink = !t.active) ∧
    (∀ t ∈ (Console.recover_and_prioritize s).1.tasks,
      t.blink = !t.active) := by
  refine ⟨by decide, ?_, ?_⟩
  · have htasks : (Console.check_system_load s load).tasks = s.tasks := by
      unfold Console.check_system_load
      split <;> rfl
    rw [htasks]
    exact h
  · unfold Console.recover_and_prioritize
    by_cases he : s.error_flag = true
    · rw [if_pos he]
      intro t ht
      simp only [List.mem_map] at ht
      obtain ⟨u, hu, rfl⟩ := ht
      rfl
    · rw [if_neg he]
      by_cases hc : s.overload_count = 0
      · rw [if_pos hc]
        intro t ht
        simp only [List.mem_map] at ht
        obtain ⟨u, hu, rfl⟩ := ht
        rfl
      · rw [if_neg hc]
        exact h

/-- Witness for C9 at the fresh controller with load 0.5. -/
theorem c9_witness :
    (∀ t ∈ Console.initAGC.tasks, t.blink = !t.active) ∧
    (∀ t ∈ (Console.check_system_load Console.initAGC (mkRat 1 2)).tasks,
      t.blink = !t.active) ∧
    (∀ t ∈ (Console.recover_and_prioritize Console.initAGC).1.tasks,
      t.blink = !t.active) :=
  c9_blink_mirrors_active Console.initAGC (mkRat 1 2) (by decide)

/-- Claim C10: in v1, degradation is permanent — from any state and any
load sequence, a task that is inactive stays inactive at its position in
the roster; no v1 operation ever sets an active flag back to true. -/
theorem c10_v1_degradation_permanent (s : V1.AGCSystem) (loads : List ℚ) :
    List.Forall₂ (fun t u : V1.Task => t.active = false → u.active = false)
      s.tasks (V1.runCycles s loads).tasks := by
  induction loads generalizing s with
  | nil => exact forall2_self _ (fun a h => h) s.tasks
  | cons l ls ih =>
      have hstep :
          List.Forall₂
            (fun t u : V1.Task => t.active = false → u.active = false)
            s.tasks (V1.step s l).tasks := by
        rcases lt_or_le 1 l with hl | hl
        · rw [v1_step_overload s l hl]
          refine forall2_map_self _ _ (fun a => ?_) s.tasks
          by_cases hgt : a.priority > 2
          · rw [if_pos hgt]
            intro _
            rfl
          · rw [if_neg hgt]
            exact fun ha => ha
        · rw [v1_step_ok s l (not_lt.mpr hl)]
          exact forall2_self _ (fun a h => h) s.tasks
      exact forall2_trans _ (fun a b c hab hbc h => hbc (hab h))
        hstep (ih (V1.step s l))
